import Mathlib

set_option maxRecDepth 8000

/-!
Shallow embedding of the Affinity container reader
(src/palettelib/affinity/container.py) and proofs about it.

Modelling conventions:
* The underlying binary file is a pure value `data : List Nat` (each element
  one byte, < 256 on real inputs).  A Python `file.read(n)` at cursor `pos`
  is `pyReadN data pos n`: it returns the bytes actually available (fewer at
  EOF) and the advanced cursor, exactly like CPython.
* `int.from_bytes(b, byteorder=little)` is `fromBytesLE`; the signed variant
  used for creation dates is `fromBytesLEsigned`.  Python accepts short or
  empty byte strings there (yielding smaller values), and so do these.
* Four-byte tags are kept as raw byte lists; `bytes.decode(ascii)` fails on
  bytes >= 128, modelled by `readTag` returning `PyError.decodeError`.
  Python string comparison on the decoded tags is code-point lexicographic,
  which on ASCII equals byte-wise lexicographic comparison (`pyStrLt`).
* Each block reader method wraps its body in the `_remember_position`
  context manager.  That context manager saves `tell()`, yields, and seeks
  back -- but the yield is NOT wrapped in try/finally, so when the body
  raises, the restoring seek after the yield is skipped and the cursor stays
  wherever the failed body left it.  The readers therefore return
  `Except (PyError x Nat) (res x Nat)`: the `Nat` is the final cursor
  position of the shared handle, restored to the entry value on success and
  left displaced on error.
* The `self.closed()` guards at the top of the block readers cannot fire
  during construction (`_closed` is initialised False and `_file` is a
  freshly opened handle), so the pure readers omit that state.
* Filenames are kept as raw byte lists; `decode(utf-8)` is not modelled and
  filename equality is byte-list equality (equal to Python string equality
  on well-formed names).
* `datetime.datetime.fromtimestamp` is not modelled; creation dates are kept
  as the raw signed epoch integer the source feeds into it.
-/

/-- Error kinds. Each variant models one Python raise site of container.py,
named after the specification taxonomy where one applies.
`invalidMagic` = "could not read file header, invalid magic";
`invalidTag` = "could not read file offsets/protection, invalid tag";
`corruptDirectory` = "file table corrupt: trying to read over the end";
`notFound` = "file does not exist";
`closedError` = "attempted to read file that is already closed";
`unsupportedOperation` = "writing is currently not implemented";
`badMode` = the mode-string ValueError in open();
`decodeError` = UnicodeDecodeError from bytes.decode(ascii);
`whenceError` = the whence ValueError in AffinityExtFile.seek;
`notSeekable` = io.UnsupportedOperation for an unseekable handle;
`attributeError` = attribute access on a None file object.
`corruptEntry` and `unsupportedCompression` belong to the specification
taxonomy; the source has no raise site producing either. -/
inductive PyError where
  | invalidMagic
  | invalidTag
  | corruptDirectory
  | corruptEntry
  | unsupportedCompression
  | notFound
  | closedError
  | unsupportedOperation
  | badMode
  | decodeError
  | whenceError
  | notSeekable
  | attributeError
  deriving DecidableEq, Inhabited

/-- Mode argument of open(). The source uses the strings "r" and "w";
`other` stands for every other string. -/
inductive OpenMode where
  | r
  | w
  | other
  deriving DecidableEq, Inhabited

/-- CONTAINER_MAGIC of container.py. -/
def CONTAINER_MAGIC : Nat := 0x414bff00

/-- CONTAINER_TAG_FAT, the bytes of "#FAT". -/
def CONTAINER_TAG_FAT : List Nat := [35, 70, 65, 84]

/-- CONTAINER_TAG_FT2, the bytes of "#FT2". -/
def CONTAINER_TAG_FT2 : List Nat := [35, 70, 84, 50]

/-- CONTAINER_TAG_FT3, the bytes of "#FT3". -/
def CONTAINER_TAG_FT3 : List Nat := [35, 70, 84, 51]

/-- CONTAINER_TAG_FT4, the bytes of "#FT4". -/
def CONTAINER_TAG_FT4 : List Nat := [35, 70, 84, 52]

/-- CONTAINER_TAG_INF, the bytes of "#Inf". -/
def CONTAINER_TAG_INF : List Nat := [35, 73, 110, 102]

/-- CONTAINER_TAG_PROT, the bytes of "Prot". -/
def CONTAINER_TAG_PROT : List Nat := [80, 114, 111, 116]

/-- CONTAINER_TAG_FIL, the bytes of "#Fil". -/
def CONTAINER_TAG_FIL : List Nat := [35, 70, 105, 108]

/-- AffinityFileHeader of container.py (filetype kept as raw bytes). -/
structure AffinityFileHeader where
  version : Nat
  flag : Nat
  filetype : List Nat
  deriving DecidableEq, Inhabited

/-- AffinityFileOffsets of container.py (creation_date kept as the raw
signed epoch value). -/
structure AffinityFileOffsets where
  directory_offset : Nat
  file_length : Nat
  data_length : Nat
  creation_date : Int
  deriving DecidableEq, Inhabited

/-- AffinityFileProtection of container.py. -/
structure AffinityFileProtection where
  flags : Nat
  deriving DecidableEq, Inhabited

/-- AffinityFileInfo of container.py.  The field `compressed` is a plain
boolean, exactly as in the source, which decodes the packed byte via
bool.from_bytes (true iff the byte is nonzero). -/
structure AffinityFileInfo where
  index : Nat
  offset : Nat
  size_original : Nat
  size_stored : Nat
  checksums : List Nat
  compressed : Bool
  version : Option Nat
  filename : List Nat
  deriving DecidableEq, Inhabited

/-- AffinityFileDirectory of container.py. -/
structure AffinityFileDirectory where
  flags : Nat
  creation_date : Int
  file_length : Nat
  data_length : Nat
  file_entries : List AffinityFileInfo
  deriving DecidableEq, Inhabited

/-- Model of Python file.read(n) for n >= 0 at cursor pos: return the bytes
available (possibly fewer than n at EOF) and the advanced cursor. -/
def pyReadN (data : List Nat) (pos n : Nat) : List Nat × Nat :=
  let bytes := (data.drop pos).take n
  (bytes, pos + bytes.length)

/-- Model of Python file.read(n) for a possibly negative n: a negative
count means read to EOF (CPython semantics for BufferedReader.read). -/
def pyRead (data : List Nat) (pos : Nat) (n : Int) : List Nat × Nat :=
  let bytes := if n < 0 then data.drop pos else (data.drop pos).take n.toNat
  (bytes, pos + bytes.length)

/-- Model of int.from_bytes(bs, byteorder=little, signed=False). -/
def fromBytesLE : List Nat → Nat
  | [] => 0
  | b :: rest => b + 256 * fromBytesLE rest

/-- Model of int.from_bytes(bs, byteorder=little, signed=True). -/
def fromBytesLEsigned (bs : List Nat) : Int :=
  let u := fromBytesLE bs
  if 2 * u < 256 ^ bs.length then (u : Int) else (u : Int) - (256 ^ bs.length : Int)

/-- Python string strict less-than, restricted to ASCII byte lists:
code-point lexicographic comparison, a proper shorter list comparing less
than any extension of it. -/
def pyStrLt : List Nat → List Nat → Bool
  | [], [] => false
  | [], _ :: _ => true
  | _ :: _, [] => false
  | a :: as, b :: bs => if a < b then true else if b < a then false else pyStrLt as bs

/-- Python string greater-or-equal on ASCII byte lists: the comparison is a
total order, so a >= b iff not (a < b). -/
def pyStrGe (a b : List Nat) : Bool := !pyStrLt a b

/-- AffinityFile._read_tag: read 4 bytes and decode as ASCII.  Bytes >= 128
make bytes.decode(ascii) raise UnicodeDecodeError. -/
def readTag (data : List Nat) (pos : Nat) : Except (PyError × Nat) (List Nat × Nat) :=
  let r := pyReadN data pos 4
  if r.1.all (fun b => b < 128) then .ok r else .error (.decodeError, r.2)

/-- AffinityFile._read_header: seek to 0, check the magic, read version and
flag, read the byte-reversed filetype tag.  On success the cursor is
restored to `pos0` by _remember_position; on failure it stays displaced
because the restoring seek after the yield is skipped. -/
def readHeader (data : List Nat) (pos0 : Nat) :
    Except (PyError × Nat) (AffinityFileHeader × Nat) :=
  let r1 := pyReadN data 0 4
  if fromBytesLE r1.1 ≠ CONTAINER_MAGIC then .error (.invalidMagic, r1.2)
  else
    let r2 := pyReadN data r1.2 2
    let r3 := pyReadN data r2.2 2
    match readTag data r3.2 with
    | .error e => .error e
    | .ok tp =>
      .ok ({ version := fromBytesLE r2.1, flag := fromBytesLE r3.1,
             filetype := tp.1.reverse }, pos0)

/-- AffinityFile._read_offsets: seek to 12, check the "#Inf" tag, then read
directory_offset, file_length, data_length, one reserved u64, the signed
creation date, and two reserved u32. -/
def readOffsets (data : List Nat) (pos0 : Nat) :
    Except (PyError × Nat) (AffinityFileOffsets × Nat) :=
  match readTag data 12 with
  | .error e => .error e
  | .ok tp =>
    if tp.1 ≠ CONTAINER_TAG_INF then .error (.invalidTag, tp.2)
    else
      let r1 := pyReadN data tp.2 8
      let r2 := pyReadN data r1.2 8
      let r3 := pyReadN data r2.2 8
      let r4 := pyReadN data r3.2 8
      let r5 := pyReadN data r4.2 8
      let r6 := pyReadN data r5.2 4
      let _r7 := pyReadN data r6.2 4
      .ok ({ directory_offset := fromBytesLE r1.1, file_length := fromBytesLE r2.1,
             data_length := fromBytesLE r3.1,
             creation_date := fromBytesLEsigned r5.1 }, pos0)

/-- AffinityFile._read_protection: seek to 64, check the "Prot" tag, read
the u32 flags. -/
def readProtection (data : List Nat) (pos0 : Nat) :
    Except (PyError × Nat) (AffinityFileProtection × Nat) :=
  match readTag data 64 with
  | .error e => .error e
  | .ok tp =>
    if tp.1 ≠ CONTAINER_TAG_PROT then .error (.invalidTag, tp.2)
    else
      let r1 := pyReadN data tp.2 4
      .ok ({ flags := fromBytesLE r1.1 }, pos0)

/-- AffinityFile._read_directory_entry: decode one entry record at `pos`.
The optional version field is present iff the directory tag compares >=
"#FT2" and the second checksum iff it compares >= "#FT4", both by Python
string comparison.  Every int.from_bytes in the source accepts short reads,
so the decode is total (filename UTF-8 validation is not modelled). -/
def readDirectoryEntry (data : List Nat) (tag : List Nat) (pos : Nat) :
    AffinityFileInfo × Nat :=
  let r1 := pyReadN data pos 4
  let r2 := pyReadN data r1.2 1
  let r3 := pyReadN data r2.2 8
  let r4 := pyReadN data r3.2 8
  let r5 := pyReadN data r4.2 8
  let r6 := pyReadN data r5.2 4
  let r7 := pyReadN data r6.2 1
  let vp := if pyStrGe tag CONTAINER_TAG_FT2 then
      let rv := pyReadN data r7.2 4
      (some (fromBytesLE rv.1), rv.2)
    else (none, r7.2)
  let cp := if pyStrGe tag CONTAINER_TAG_FT4 then
      let rc := pyReadN data vp.2 4
      ([fromBytesLE r6.1] ++ [fromBytesLE rc.1], rc.2)
    else ([fromBytesLE r6.1], vp.2)
  let r8 := pyReadN data cp.2 2
  let r9 := pyReadN data r8.2 (fromBytesLE r8.1)
  ({ index := fromBytesLE r1.1, offset := fromBytesLE r3.1,
     size_original := fromBytesLE r4.1, size_stored := fromBytesLE r5.1,
     checksums := cp.1, compressed := fromBytesLE r7.1 != 0,
     version := vp.1, filename := r9.1 }, r9.2)

/-- Entry loop of AffinityFile._read_directory: read exactly `count`
entries; before each entry, fail with the corrupt-table error if the cursor
has reached or passed `endPos`. -/
def readEntries (data : List Nat) (tag : List Nat) (count : Nat) (endPos : Nat)
    (pos : Nat) (acc : List AffinityFileInfo) :
    Except (PyError × Nat) (List AffinityFileInfo × Nat) :=
  match count with
  | 0 => .ok (acc, pos)
  | n + 1 =>
    if pos ≥ endPos then .error (.corruptDirectory, pos)
    else
      let ep := readDirectoryEntry data tag pos
      readEntries data tag n endPos ep.2 (acc ++ [ep.1])

/-- AffinityFile._read_directory: seek to the directory offset, read the
tag (without validating it against any constant), the fixed fields, compute
end = tell() + table_length, and read table_count entries. -/
def readDirectory (data : List Nat) (pos0 : Nat) (offsets : AffinityFileOffsets) :
    Except (PyError × Nat) (AffinityFileDirectory × Nat) :=
  match readTag data offsets.directory_offset with
  | .error e => .error e
  | .ok tp =>
    let r1 := pyReadN data tp.2 8
    let r2 := pyReadN data r1.2 8
    let r3 := pyReadN data r2.2 8
    let r4 := pyReadN data r3.2 8
    let r5 := pyReadN data r4.2 8
    let r6 := pyReadN data r5.2 8
    let r7 := pyReadN data r6.2 4
    let r8 := pyReadN data r7.2 3
    let endPos := r8.2 + fromBytesLE r7.1
    match readEntries data tp.1 (fromBytesLE r6.1) endPos r8.2 [] with
    | .error e => .error e
    | .ok es =>
      .ok ({ flags := fromBytesLE r1.1, creation_date := fromBytesLEsigned r2.1,
             file_length := fromBytesLE r3.1, data_length := fromBytesLE r4.1,
             file_entries := es.1 }, pos0)

/-- AffinityFile._populate_info: header, offsets, protection, directory, in
that order; the first failure aborts the whole sequence. -/
def populateInfo (data : List Nat) (pos0 : Nat) :
    Except (PyError × Nat)
      ((AffinityFileHeader × AffinityFileOffsets × AffinityFileProtection ×
        AffinityFileDirectory) × Nat) :=
  match readHeader data pos0 with
  | .error e => .error e
  | .ok hp =>
    match readOffsets data hp.2 with
    | .error e => .error e
    | .ok op =>
      match readProtection data op.2 with
      | .error e => .error e
      | .ok pp =>
        match readDirectory data pp.2 op.1 with
        | .error e => .error e
        | .ok dp => .ok ((hp.1, op.1, pp.1, dp.1), dp.2)

/-- State of an AffinityExtFile.  `data` and `filePos` model the shared
underlying handle (its content and cursor), `filePresent` models
`_file is not None`, `handleClosed` the closed flag of the shared handle,
`handleSeekable` its seekable() answer, `info` the `_info` entry record and
`position` the `_position` logical cursor.  `position` is an Int because
read() adds a possibly negative adjusted count to it without clamping. -/
structure AffinityExtFile where
  data : List Nat
  filePos : Nat
  filePresent : Bool
  handleClosed : Bool
  handleSeekable : Bool
  info : AffinityFileInfo
  position : Int
  deriving DecidableEq, Inhabited

/-- AffinityExtFile.closed: the stream is closed when its file reference
was cleared or the underlying handle is closed. -/
def AffinityExtFile.closed (f : AffinityExtFile) : Bool :=
  !f.filePresent || f.handleClosed

/-- AffinityExtFile.peek: adjust a negative count to size_original minus
position, then inside _remember_position seek the shared handle to
position + info.offset, read, and restore the saved cursor (on this path
nothing after the seek can raise, so the state comes back unchanged).
Accessing `_file.closed` on a cleared reference is an AttributeError. -/
def AffinityExtFile.peek (f : AffinityExtFile) (n0 : Int) :
    Except PyError (List Nat × AffinityExtFile) :=
  let n := if n0 < 0 then (f.info.size_original : Int) - f.position else n0
  if f.filePresent = false then .error .attributeError
  else if f.handleClosed then .error .closedError
  else
    let target : Int := f.position + (f.info.offset : Int)
    if target < 0 then .error .whenceError
    else .ok ((pyRead f.data target.toNat n).1, f)

/-- AffinityExtFile.read: adjust a negative count to size_original minus
position, peek that many bytes, then advance `_position` by the adjusted
count (not by the number of bytes actually obtained). -/
def AffinityExtFile.read (f : AffinityExtFile) (n0 : Int) :
    Except PyError (List Nat × AffinityExtFile) :=
  let n := if n0 < 0 then (f.info.size_original : Int) - f.position else n0
  match f.peek n with
  | .error e => .error e
  | .ok bp => .ok (bp.1, { bp.2 with position := bp.2.position + n })

/-- AffinityExtFile.seek: compute the target by whence (0 = absolute,
1 = relative to the current position, 2 = relative to info.offset as the
source writes it), clamp first above at size_original and then below at 0,
store the result in `_position` and return tell(). -/
def AffinityExtFile.seek (f : AffinityExtFile) (offset : Int) (whence : Nat) :
    Except PyError (Int × AffinityExtFile) :=
  if f.closed then .error .closedError
  else if f.handleSeekable = false then .error .notSeekable
  else
    match (if whence = 0 then some offset
           else if whence = 1 then some (f.position + offset)
           else if whence = 2 then some ((f.info.offset : Int) + offset)
           else none) with
    | none => .error .whenceError
    | some np =>
      let np1 := if np > (f.info.size_original : Int) then (f.info.size_original : Int) else np
      let np2 := if np1 < 0 then 0 else np1
      .ok (np2, { f with position := np2 })

/-- AffinityExtFile.tell: return `_position` after the closed and seekable
guards. -/
def AffinityExtFile.tell (f : AffinityExtFile) : Except PyError Int :=
  if f.closed then .error .closedError
  else if f.handleSeekable = false then .error .notSeekable
  else .ok f.position

/-- State of an AffinityFile container.  `data`, `filePos`, `handleClosed`
and `handleSeekable` model the underlying handle, `filePresent` models
`_file is not None`, `refcount` the `_refcount` of live extracted streams
(an Int, since the source decrements a plain integer) and `closedFlag` the
`_closed` flag. -/
structure AffinityFile where
  data : List Nat
  filePos : Nat
  filePresent : Bool
  handleClosed : Bool
  handleSeekable : Bool
  refcount : Int
  closedFlag : Bool
  header : AffinityFileHeader
  offsets : AffinityFileOffsets
  protection : AffinityFileProtection
  directory : AffinityFileDirectory
  deriving DecidableEq, Inhabited

/-- AffinityFile.closed: when the file reference is gone or the underlying
handle is closed, set `_closed` and report true; otherwise report the
current `_closed` flag.  Returns the answer and the possibly updated
state. -/
def AffinityFile.closed (s : AffinityFile) : Bool × AffinityFile :=
  if !s.filePresent || s.handleClosed then (true, { s with closedFlag := true })
  else (s.closedFlag, s)

/-- AffinityFile.close: set `_closed`; release the underlying handle only
when no extracted stream is live, the reference is present and the handle
is not already closed. -/
def AffinityFile.close (s : AffinityFile) : AffinityFile :=
  let s1 := { s with closedFlag := true }
  if s1.refcount > 0 then s1
  else if s1.filePresent = false then s1
  else if s1.handleClosed then s1
  else { s1 with handleClosed := true }

/-- AffinityFile._close, the release callback handed to each extracted
stream: decrement the refcount and, when the container was already marked
closed, run close() to complete the deferred release. -/
def AffinityFile.closeCallback (s : AffinityFile) : AffinityFile :=
  let s1 := { s with refcount := s.refcount - 1 }
  if s1.closedFlag then s1.close else s1

/-- AffinityFile._find_entry: linear scan of the directory entries for an
exact filename match. -/
def findEntryIn : List AffinityFileInfo → List Nat → Option AffinityFileInfo
  | [], _ => none
  | e :: rest, name => if e.filename = name then some e else findEntryIn rest name

/-- AffinityFile._find_entry bound to the container state. -/
def AffinityFile.findEntry (s : AffinityFile) (name : List Nat) :
    Option AffinityFileInfo :=
  findEntryIn s.directory.file_entries name

/-- Result of AffinityFile.open: either a fresh extracted stream or the
raised error. -/
inductive OpenResult where
  | stream (f : AffinityExtFile)
  | error (e : PyError)
  deriving DecidableEq, Inhabited

/-- OpenResult.isStream: did open() return a stream rather than raise. -/
def OpenResult.isStream : OpenResult → Bool
  | .stream _ => true
  | .error _ => false

/-- AffinityFile.open: reject a mode outside r and w, then the closed
guard, then reject mode w, then look up the entry (NotFound when absent);
on success increment the refcount and hand out a stream sharing the
underlying handle, positioned at 0. -/
def AffinityFile.openEntry (s : AffinityFile) (name : List Nat) (mode : OpenMode) :
    OpenResult × AffinityFile :=
  if mode ≠ .r ∧ mode ≠ .w then (.error .badMode, s)
  else
    let cs := s.closed
    if cs.1 then (.error .closedError, cs.2)
    else if mode = .w then (.error .unsupportedOperation, cs.2)
    else
      match cs.2.findEntry name with
      | none => (.error .notFound, cs.2)
      | some info =>
        (.stream { data := cs.2.data, filePos := cs.2.filePos, filePresent := true,
                   handleClosed := cs.2.handleClosed,
                   handleSeekable := cs.2.handleSeekable,
                   info := info, position := 0 },
         { cs.2 with refcount := cs.2.refcount + 1 })

/-- Construction of an AffinityFile from a freshly opened handle (cursor at
0, not closed, seekable, refcount 0): run _populate_info and store the four
decoded blocks. -/
def openContainer (data : List Nat) : Except (PyError × Nat) AffinityFile :=
  match populateInfo data 0 with
  | .error e => .error e
  | .ok ip =>
    .ok { data := data, filePos := ip.2, filePresent := true, handleClosed := false,
          handleSeekable := true, refcount := 0, closedFlag := false,
          header := ip.1.1, offsets := ip.1.2.1, protection := ip.1.2.2.1,
          directory := ip.1.2.2.2 }

/-- Synthetic archive used as concrete input: a valid header, offsets block
pointing the directory to byte 72, protection block, a directory with one
entry, and a payload area at byte 200 holding [9, 8, 7, 6, 5, 4, 3, 2].
The directory tag, the low byte of table_length and the packed compression
byte of the single entry are parameters.  The entry is named "A" (byte 65),
has offset 200, size_original 4 and size_stored 3.  Record layout for a
"#FAT" directory: the entry spans bytes 131..168 and the compression byte
sits at absolute offset 164. -/
def mkDemoArchive (dirTag : List Nat) (tableLen : Nat) (complByte : Nat) : List Nat :=
  [0x00, 0xff, 0x4b, 0x41] ++
  [1, 0] ++ [0, 0] ++
  [97, 97, 97, 97] ++
  CONTAINER_TAG_INF ++
  [72, 0, 0, 0, 0, 0, 0, 0] ++
  List.replicate 8 0 ++
  List.replicate 8 0 ++
  List.replicate 8 0 ++
  List.replicate 8 0 ++
  List.replicate 8 0 ++
  CONTAINER_TAG_PROT ++
  [0, 0, 0, 0] ++
  dirTag ++
  List.replicate 8 0 ++
  List.replicate 8 0 ++
  List.replicate 8 0 ++
  List.replicate 8 0 ++
  List.replicate 8 0 ++
  [1, 0, 0, 0, 0, 0, 0, 0] ++
  [tableLen, 0, 0, 0] ++
  [0, 0, 0] ++
  [7, 0, 0, 0] ++
  [0] ++
  [200, 0, 0, 0, 0, 0, 0, 0] ++
  [4, 0, 0, 0, 0, 0, 0, 0] ++
  [3, 0, 0, 0, 0, 0, 0, 0] ++
  [0, 0, 0, 0] ++
  [complByte] ++
  [1, 0] ++
  [65] ++
  List.replicate 32 0 ++
  [9, 8, 7, 6, 5, 4, 3, 2]

/-- Demo archive with a "#FAT" directory, a roomy table_length of 64, and a
compression byte of 3 on its single entry (spec algorithm = low 2 bits = 3,
outside the supported set 0, 1, 2). -/
def demoArchive : List Nat := mkDemoArchive CONTAINER_TAG_FAT 64 3

/-- Filename of the single demo entry, the bytes of "A". -/
def demoFilename : List Nat := [65]

/-- Container state produced by constructing an AffinityFile on the demo
archive. -/
def demoContainer : AffinityFile :=
  (openContainer demoArchive).toOption.getD default

/-- Extracted stream produced by open("A") on the demo container. -/
def demoStream : AffinityExtFile :=
  match (demoContainer.openEntry demoFilename .r).1 with
  | .stream f => f
  | .error _ => default

/-- Sixteen-byte file whose bytes at offset 12 are "XXXX" instead of the
expected "#Inf" info tag, used to exercise the failure path of
_read_offsets. -/
def badInfoTagFile : List Nat :=
  [0x00, 0xff, 0x4b, 0x41, 1, 0, 0, 0, 97, 97, 97, 97, 88, 88, 88, 88]

/-- Demo archive whose directory tag is "ZZZZ" (bytes 90), not one of the
four recognized variant constants. -/
def unknownTagArchive : List Nat := mkDemoArchive [90, 90, 90, 90] 64 3

/-- Demo archive whose directory declares table_count 1 but table_length 0,
so the table is too short to hold its declared entries. -/
def truncatedTableArchive : List Nat := mkDemoArchive CONTAINER_TAG_FAT 0 3

/-- Inversion of a successful open: the stream shares the container data,
holds a live file reference over a non-closed handle, starts at logical
position 0, and carries the entry found by exact filename lookup. -/
theorem openEntry_stream_inv (s : AffinityFile) (name : List Nat) (mode : OpenMode)
    (f : AffinityExtFile) (h : (s.openEntry name mode).1 = .stream f) :
    f.data = s.data ∧ f.filePresent = true ∧ f.handleClosed = false ∧
    f.position = 0 ∧ s.findEntry name = some f.info := by
  unfold AffinityFile.openEntry at h
  by_cases hm : mode ≠ OpenMode.r ∧ mode ≠ OpenMode.w
  · rw [if_pos hm] at h
    exact absurd h (by simp)
  · rw [if_neg hm] at h
    by_cases hb : (!s.filePresent || s.handleClosed) = true
    · have hcs : s.closed = (true, { s with closedFlag := true }) := by
        unfold AffinityFile.closed
        rw [if_pos hb]
      rw [hcs] at h
      simp at h
    · have hfp : s.filePresent = true := by
        rcases Bool.or_eq_false_iff.mp (Bool.not_eq_true _ ▸ hb) with ⟨h1, _⟩
        simpa using h1
      have hhc : s.handleClosed = false := by
        rcases Bool.or_eq_false_iff.mp (Bool.not_eq_true _ ▸ hb) with ⟨_, h2⟩
        exact h2
      have hcs : s.closed = (s.closedFlag, s) := by
        unfold AffinityFile.closed
        rw [if_neg hb]
      rw [hcs] at h
      by_cases hcf : s.closedFlag = true
      · simp [hcf] at h
      · rw [Bool.not_eq_true] at hcf
        simp only [hcf, Prod.fst, Prod.snd] at h
        by_cases hw : mode = OpenMode.w
        · simp [hw] at h
        · rw [if_neg (by simp)] at h
          rw [if_neg hw] at h
          cases hfe : s.findEntry name with
          | none => rw [hfe] at h; simp at h
          | some info =>
            rw [hfe] at h
            simp only [OpenResult.stream.injEq] at h
            subst h
            exact ⟨rfl, rfl, hhc, rfl, by simp [hfe]⟩

/-- Full read of a freshly opened stream hands back the raw slice of the
shared file starting at the entry offset, size_original bytes long (fewer
only at EOF), with no transformation applied. -/
theorem read_all_fresh (f : AffinityExtFile) (hfp : f.filePresent = true)
    (hhc : f.handleClosed = false) (hpos : f.position = 0) :
    Except.map Prod.fst (f.read (-1)) =
      .ok ((f.data.drop f.info.offset).take f.info.size_original) := by
  have hn : ¬ ((f.info.size_original : Int) < 0) := by omega
  have ht : ¬ ((f.info.offset : Int) < 0) := by omega
  simp only [AffinityExtFile.read, AffinityExtFile.peek, pyRead, hpos, hfp, hhc,
    sub_zero, zero_add]
  simp [hn, ht, Except.map]

/-- Peek on a freshly opened stream with a nonnegative count returns the
raw slice of the shared file starting at the entry offset. -/
theorem peek_fresh (f : AffinityExtFile) (hfp : f.filePresent = true)
    (hhc : f.handleClosed = false) (hpos : f.position = 0) (n : Int) (hn : 0 ≤ n) :
    Except.map Prod.fst (f.peek n) = .ok ((f.data.drop f.info.offset).take n.toNat) := by
  have h1 : ¬ n < 0 := by omega
  have ht : ¬ ((f.info.offset : Int) < 0) := by omega
  simp only [AffinityExtFile.peek, pyRead, hpos, hfp, hhc, zero_add]
  simp [h1, ht, Except.map]

/-- Open never raises the corrupt-entry error: no code path of open()
inspects the payload bytes at the entry offset. -/
theorem openEntry_ne_corruptEntry (s : AffinityFile) (name : List Nat) (mode : OpenMode) :
    (s.openEntry name mode).1 ≠ .error .corruptEntry := by
  simp only [AffinityFile.openEntry]
  split
  · simp
  · split
    · simp
    · split
      · simp
      · split <;> simp

/-- Claim C1, counterexample: the demo entry carries the packed compression
byte 3 (spec algorithm = low 2 bits = 3, outside the supported set 0, 1, 2),
yet open("A") returns a stream instead of failing with
UnsupportedCompression, and a full read returns the raw stored bytes
[9, 8, 7, 6] untouched; no decompression dispatch of any kind exists. -/
theorem c1_counterexample :
    (demoArchive.drop 164).take 1 = [3] ∧
    ((openContainer demoArchive).toOption.map
      (fun s => ((s.openEntry demoFilename .r).1).isStream)) = some true ∧
    demoStream.info.compressed = true ∧
    Except.map Prod.fst (demoStream.read (-1)) = .ok [9, 8, 7, 6] :=
  ⟨rfl, rfl, rfl, rfl⟩

/-- Claim C1 (amended): the reader performs no decompression and recognizes
no compression algorithm.  The per-entry compression byte is decoded only
as a boolean flag, open never fails with UnsupportedCompression, and fully
reading the stream returned by open(name) yields the size_original raw
bytes starting at the entry offset verbatim, whatever the compression byte
was. -/
theorem c1_read_is_verbatim (s : AffinityFile) (name : List Nat)
    (f : AffinityExtFile) (h : (s.openEntry name .r).1 = .stream f)
    (hlen : f.info.offset + f.info.size_original ≤ s.data.length) :
    ((s.openEntry name .r).1 ≠ .error .unsupportedCompression) ∧
    Except.map Prod.fst (f.read (-1)) =
      .ok ((s.data.drop f.info.offset).take f.info.size_original) ∧
    ((s.data.drop f.info.offset).take f.info.size_original).length =
      f.info.size_original := by
  obtain ⟨hd, hfp, hhc, hpos, -⟩ := openEntry_stream_inv s name .r f h
  refine ⟨?_, ?_, ?_⟩
  · rw [h]
    simp
  · rw [← hd]
    exact read_all_fresh f hfp hhc hpos
  · simp only [List.length_take, List.length_drop]
    omega

/-- Claim C1, witness for the amended theorem at the demo archive. -/
theorem c1_read_is_verbatim_witness :
    ((demoContainer.openEntry demoFilename .r).1 ≠ .error .unsupportedCompression) ∧
    Except.map Prod.fst (demoStream.read (-1)) =
      .ok ((demoContainer.data.drop demoStream.info.offset).take
            demoStream.info.size_original) ∧
    ((demoContainer.data.drop demoStream.info.offset).take
        demoStream.info.size_original).length = demoStream.info.size_original :=
  c1_read_is_verbatim demoContainer demoFilename demoStream (by rfl) (by decide)

/-- Claim C2, counterexample: the four bytes at the demo entry offset 200
are [9, 8, 7, 6], not the "#Fil" file tag, yet open("A") returns a stream
instead of failing with CorruptEntry; the full read returns exactly those
bytes starting at the offset itself (no 4-byte tag is skipped) and its
length is size_original 4, not size_stored 3. -/
theorem c2_counterexample :
    (demoArchive.drop 200).take 4 ≠ CONTAINER_TAG_FIL ∧
    ((openContainer demoArchive).toOption.map
      (fun s => ((s.openEntry demoFilename .r).1).isStream)) = some true ∧
    Except.map Prod.fst (demoStream.read (-1)) = .ok [9, 8, 7, 6] ∧
    demoStream.info.size_stored = 3 ∧ demoStream.info.size_original = 4 :=
  ⟨by decide, rfl, rfl, rfl, rfl⟩

/-- Claim C2 (amended): open(name) performs no seek, reads no local tag and
never fails with CorruptEntry; the stream it returns serves bytes starting
at the entry offset itself, and its reads cover size_original rather than
size_stored bytes. -/
theorem c2_open_reads_at_offset :
    (∀ (s : AffinityFile) (name : List Nat) (mode : OpenMode),
        (s.openEntry name mode).1 ≠ .error .corruptEntry) ∧
    ∀ (s : AffinityFile) (name : List Nat) (f : AffinityExtFile) (n : Int),
      (s.openEntry name .r).1 = .stream f → 0 ≤ n →
      Except.map Prod.fst (f.peek n) =
        .ok ((s.data.drop f.info.offset).take n.toNat) := by
  refine ⟨openEntry_ne_corruptEntry, ?_⟩
  intro s name f n h hn
  obtain ⟨hd, hfp, hhc, hpos, -⟩ := openEntry_stream_inv s name .r f h
  rw [← hd]
  exact peek_fresh f hfp hhc hpos n hn

/-- Claim C2, witness for the amended theorem at the demo archive. -/
theorem c2_open_reads_at_offset_witness :
    ((demoContainer.openEntry demoFilename .r).1 ≠ .error .corruptEntry) ∧
    Except.map Prod.fst (demoStream.peek 4) =
      .ok ((demoContainer.data.drop demoStream.info.offset).take (4 : Int).toNat) :=
  ⟨c2_open_reads_at_offset.1 demoContainer demoFilename .r,
   c2_open_reads_at_offset.2 demoContainer demoFilename demoStream 4 (by rfl) (by decide)⟩

/-- Claim C3 (code bug): _remember_position restores the saved cursor only
on the normal exit of its body; the restoring seek after the yield is not
protected by try/finally, so a decode failure leaves the shared cursor
displaced.  Failing input: a file whose info-tag bytes at offset 12 read
"XXXX"; with the cursor initially at 5, _read_offsets raises the
invalid-tag error and the cursor ends at 16 instead of being restored to 5.
The second conjunct shows the success path of the same reader does restore
the cursor to 5 on the demo archive. -/
theorem c3_cursor_not_restored_on_error :
    readOffsets badInfoTagFile 5 = .error (.invalidTag, 16) ∧
    readOffsets demoArchive 5 =
      .ok ({ directory_offset := 72, file_length := 0, data_length := 0,
             creation_date := 0 }, 5) :=
  ⟨rfl, rfl⟩

/-- Error kind of a failed tag read: the only failure _read_tag itself can
raise is the ASCII decode error. -/
theorem readTag_error_kind (data : List Nat) (pos : Nat) (e : PyError) (q : Nat)
    (h : readTag data pos = .error (e, q)) : e = .decodeError := by
  simp only [readTag] at h
  split at h
  · exact absurd h (by simp)
  · simp only [Except.error.injEq, Prod.mk.injEq] at h
    exact h.1.symm

/-- Error kind of a failed entry loop: the only failure the loop can raise
is the corrupt-table error (entry record decoding itself is total). -/
theorem readEntries_error_kind (data tag : List Nat) (count : Nat) :
    ∀ (endPos pos : Nat) (acc : List AffinityFileInfo) (e : PyError) (q : Nat),
      readEntries data tag count endPos pos acc = .error (e, q) →
      e = .corruptDirectory := by
  induction count with
  | zero =>
    intro endPos pos acc e q h
    simp [readEntries] at h
  | succ n ih =>
    intro endPos pos acc e q h
    simp only [readEntries] at h
    split at h
    · simp only [Except.error.injEq, Prod.mk.injEq] at h
      exact h.1.symm
    · exact ih _ _ _ _ _ h

/-- Error kinds of a failed directory read: either the ASCII decode of the
tag failed or the entry loop hit the corrupt-table guard; in particular no
invalid-tag error exists on this path. -/
theorem readDirectory_error_kind (data : List Nat) (pos0 : Nat)
    (offsets : AffinityFileOffsets) (e : PyError) (q : Nat)
    (h : readDirectory data pos0 offsets = .error (e, q)) :
    e = .decodeError ∨ e = .corruptDirectory := by
  simp only [readDirectory] at h
  split at h
  · rename_i ep heq
    simp only [Except.error.injEq] at h
    subst h
    left
    exact readTag_error_kind _ _ _ _ heq
  · rename_i tp heq
    split at h
    · rename_i ep heq2
      simp only [Except.error.injEq] at h
      subst h
      right
      exact readEntries_error_kind _ _ _ _ _ _ _ _ heq2
    · exact absurd h (by simp)

/-- Claim C4, counterexample: the directory of unknownTagArchive carries
the tag "ZZZZ" (bytes 90), which is none of the four recognized variant
constants, yet the directory read succeeds and decodes its declared single
entry instead of failing with InvalidTag. -/
theorem c4_counterexample :
    (unknownTagArchive.drop 72).take 4 = [90, 90, 90, 90] ∧
    ([90, 90, 90, 90] ≠ CONTAINER_TAG_FAT ∧ [90, 90, 90, 90] ≠ CONTAINER_TAG_FT2 ∧
     [90, 90, 90, 90] ≠ CONTAINER_TAG_FT3 ∧ [90, 90, 90, 90] ≠ CONTAINER_TAG_FT4) ∧
    (readDirectory unknownTagArchive 0
       { directory_offset := 72, file_length := 0, data_length := 0,
         creation_date := 0 }).toOption.map
      (fun p => p.1.file_entries.length) = some 1 :=
  ⟨rfl, by decide, rfl⟩

/-- Claim C4 (amended): the directory reader performs no tag validation at
all.  A directory read never fails with InvalidTag for any input; the tag
is only used for the ordering comparisons that gate optional entry fields,
and under the unrecognized tag "ZZZZ" the declared entry is decoded. -/
theorem c4_no_tag_validation :
    (∀ (data : List Nat) (pos0 : Nat) (offsets : AffinityFileOffsets) (q : Nat),
        readDirectory data pos0 offsets ≠ .error (.invalidTag, q)) ∧
    (readDirectory unknownTagArchive 0
       { directory_offset := 72, file_length := 0, data_length := 0,
         creation_date := 0 }).toOption.map
      (fun p => p.1.file_entries.length) = some 1 := by
  refine ⟨?_, rfl⟩
  intro data pos0 offsets q h
  rcases readDirectory_error_kind data pos0 offsets _ _ h with h1 | h1 <;> simp at h1

/-- Claim C4, witness: the no-invalid-tag statement applied at the demo
archive. -/
theorem c4_no_tag_validation_witness :
    readDirectory demoArchive 0
      { directory_offset := 72, file_length := 0, data_length := 0,
        creation_date := 0 } ≠ .error (.invalidTag, 0) :=
  c4_no_tag_validation.1 demoArchive 0
    { directory_offset := 72, file_length := 0, data_length := 0,
      creation_date := 0 } 0

/-- Claim C5: before each of the declared table_count entry reads, the loop
fails with the corrupt-table error as soon as the cursor has reached or
passed end = position-after-fixed-fields + table_length; a successful loop
returns exactly its declared number of entries; and on the truncated demo
archive (table_count 1, table_length 0) the whole directory read fails with
CorruptDirectory, so no entry table, not even a partial one, is produced. -/
theorem c5_corrupt_table_guard :
    (∀ (data tag : List Nat) (n endPos pos : Nat) (acc : List AffinityFileInfo),
        pos ≥ endPos →
        readEntries data tag (n + 1) endPos pos acc =
          .error (.corruptDirectory, pos)) ∧
    (∀ (data tag : List Nat) (n : Nat) (endPos pos : Nat)
        (acc res : List AffinityFileInfo) (q : Nat),
        readEntries data tag n endPos pos acc = .ok (res, q) →
        res.length = acc.length + n) ∧
    readDirectory truncatedTableArchive 0
      { directory_offset := 72, file_length := 0, data_length := 0,
        creation_date := 0 } = .error (.corruptDirectory, 131) := by
  refine ⟨?_, ?_, rfl⟩
  · intro data tag n endPos pos acc hge
    simp only [readEntries]
    rw [if_pos hge]
  · intro data tag n
    induction n with
    | zero =>
      intro endPos pos acc res q h
      simp only [readEntries, Except.ok.injEq, Prod.mk.injEq] at h
      rw [← h.1]
      simp
    | succ m ih =>
      intro endPos pos acc res q h
      simp only [readEntries] at h
      split at h
      · exact absurd h (by simp)
      · have := ih _ _ _ _ _ h
        simp only [List.length_append, List.length_cons, List.length_nil] at this
        omega

/-- Claim C5, witness: the guard fires at a concrete loop state whose
cursor already sits at the declared end. -/
theorem c5_corrupt_table_guard_witness :
    readEntries [] [] 1 0 0 [] = .error (.corruptDirectory, 0) :=
  c5_corrupt_table_guard.1 [] [] 0 0 0 [] (le_refl 0)

/-- Claim C6: entry records gate their optional fields by byte-wise
lexicographic comparison of the directory tag.  In general the u32 version
field is present exactly when the tag compares >= "#FT2" and the second
u32 checksum exactly when it compares >= "#FT4"; in particular a "#FAT"
entry has neither optional field, "#FT2" and "#FT3" entries carry only the
version, and "#FT4" entries carry both. -/
theorem c6_tag_gated_optional_fields :
    (∀ (data tag : List Nat) (pos : Nat),
        (readDirectoryEntry data tag pos).1.version.isSome =
          pyStrGe tag CONTAINER_TAG_FT2 ∧
        (readDirectoryEntry data tag pos).1.checksums.length =
          (if pyStrGe tag CONTAINER_TAG_FT4 then 2 else 1)) ∧
    (∀ (data : List Nat) (pos : Nat),
        (readDirectoryEntry data CONTAINER_TAG_FAT pos).1.version = none ∧
        (readDirectoryEntry data CONTAINER_TAG_FAT pos).1.checksums.length = 1 ∧
        (readDirectoryEntry data CONTAINER_TAG_FT2 pos).1.version.isSome = true ∧
        (readDirectoryEntry data CONTAINER_TAG_FT2 pos).1.checksums.length = 1 ∧
        (readDirectoryEntry data CONTAINER_TAG_FT3 pos).1.version.isSome = true ∧
        (readDirectoryEntry data CONTAINER_TAG_FT3 pos).1.checksums.length = 1 ∧
        (readDirectoryEntry data CONTAINER_TAG_FT4 pos).1.version.isSome = true ∧
        (readDirectoryEntry data CONTAINER_TAG_FT4 pos).1.checksums.length = 2) := by
  have e1 : pyStrGe CONTAINER_TAG_FAT CONTAINER_TAG_FT2 = false := rfl
  have e2 : pyStrGe CONTAINER_TAG_FAT CONTAINER_TAG_FT4 = false := rfl
  have e3 : pyStrGe CONTAINER_TAG_FT2 CONTAINER_TAG_FT2 = true := rfl
  have e4 : pyStrGe CONTAINER_TAG_FT2 CONTAINER_TAG_FT4 = false := rfl
  have e5 : pyStrGe CONTAINER_TAG_FT3 CONTAINER_TAG_FT2 = true := rfl
  have e6 : pyStrGe CONTAINER_TAG_FT3 CONTAINER_TAG_FT4 = false := rfl
  have e7 : pyStrGe CONTAINER_TAG_FT4 CONTAINER_TAG_FT2 = true := rfl
  have e8 : pyStrGe CONTAINER_TAG_FT4 CONTAINER_TAG_FT4 = true := rfl
  constructor
  · intro data tag pos
    by_cases h2 : pyStrGe tag CONTAINER_TAG_FT2 <;>
      by_cases h4 : pyStrGe tag CONTAINER_TAG_FT4 <;>
        simp [readDirectoryEntry, h2, h4]
  · intro data pos
    refine ⟨?_, ?_, ?_, ?_, ?_, ?_, ?_, ?_⟩ <;>
      simp [readDirectoryEntry, e1, e2, e3, e4, e5, e6, e7, e8]

/-- Close always sets the closed flag, on every branch. -/
theorem close_closedFlag (t : AffinityFile) : t.close.closedFlag = true := by
  simp only [AffinityFile.close]
  split
  · rfl
  · split
    · rfl
    · split <;> rfl

/-- Close never touches the refcount. -/
theorem close_refcount (t : AffinityFile) : t.close.refcount = t.refcount := by
  simp only [AffinityFile.close]
  split
  · rfl
  · split
    · rfl
    · split <;> rfl

/-- Closed reports true whenever the closed flag is already set. -/
theorem closed_fst_of_closedFlag (t : AffinityFile) (h : t.closedFlag = true) :
    (t.closed).1 = true := by
  simp only [AffinityFile.closed]
  split
  · rfl
  · exact h

/-- The state handed on by the closed query keeps the refcount. -/
theorem closed_snd_refcount (t : AffinityFile) : (t.closed).2.refcount = t.refcount := by
  simp only [AffinityFile.closed]
  split <;> rfl

/-- The state handed on by the closed query keeps the directory. -/
theorem closed_snd_directory (t : AffinityFile) :
    (t.closed).2.directory = t.directory := by
  simp only [AffinityFile.closed]
  split <;> rfl

/-- Open in read mode fails with the closed error whenever the closed query
answers true. -/
theorem openEntry_closedError (t : AffinityFile) (name : List Nat)
    (h : (t.closed).1 = true) :
    (t.openEntry name .r).1 = .error .closedError := by
  simp only [AffinityFile.openEntry]
  rw [if_neg (by simp)]
  rw [if_pos h]

/-- Claim C7: close() marks the container closed immediately and every
subsequent open() fails with the closed error; while the open-stream
refcount is positive the underlying handle is not released; a stream
release decrements the refcount, and on a container already marked closed
(live handle present) the deferred release completes exactly when the
releasing stream was the last one (refcount at most 1). -/
theorem c7_deferred_close (s : AffinityFile) (name : List Nat) :
    (s.close.closedFlag = true) ∧
    ((s.close.openEntry name .r).1 = .error .closedError) ∧
    (s.refcount > 0 → s.close.handleClosed = s.handleClosed) ∧
    (s.closedFlag = true → s.closeCallback.refcount = s.refcount - 1) ∧
    (s.closedFlag = true → s.filePresent = true → s.handleClosed = false →
      (s.closeCallback.handleClosed = true ↔ s.refcount ≤ 1)) := by
  refine ⟨close_closedFlag s, ?_, ?_, ?_, ?_⟩
  · exact openEntry_closedError _ _ (closed_fst_of_closedFlag _ (close_closedFlag s))
  · intro h
    simp only [AffinityFile.close]
    rw [if_pos (show ({ s with closedFlag := true } : AffinityFile).refcount > 0 from h)]
  · intro h
    simp only [AffinityFile.closeCallback]
    rw [if_pos (show ({ s with refcount := s.refcount - 1 } : AffinityFile).closedFlag
          = true from h)]
    rw [close_refcount]
  · intro h1 h2 h3
    simp only [AffinityFile.closeCallback]
    rw [if_pos (show ({ s with refcount := s.refcount - 1 } : AffinityFile).closedFlag
          = true from h1)]
    simp only [AffinityFile.close]
    by_cases hr : s.refcount - 1 > 0
    · rw [if_pos hr]
      simp [h3]
      omega
    · rw [if_neg hr]
      rw [if_neg (by simp [h2])]
      rw [if_neg (by simp [h3])]
      simp
      omega

/-- Claim C7, witness at a container marked closed with one live stream. -/
theorem c7_deferred_close_witness :
    (({ demoContainer with refcount := 1, closedFlag := true } :
        AffinityFile).close.closedFlag = true) ∧
    ((({ demoContainer with refcount := 1, closedFlag := true } :
        AffinityFile).close.openEntry demoFilename .r).1 = .error .closedError) ∧
    (({ demoContainer with refcount := 1, closedFlag := true } :
        AffinityFile).close.handleClosed =
      ({ demoContainer with refcount := 1, closedFlag := true } :
        AffinityFile).handleClosed) ∧
    (({ demoContainer with refcount := 1, closedFlag := true } :
        AffinityFile).closeCallback.refcount =
      ({ demoContainer with refcount := 1, closedFlag := true } :
        AffinityFile).refcount - 1) ∧
    (({ demoContainer with refcount := 1, closedFlag := true } :
        AffinityFile).closeCallback.handleClosed = true ↔
      ({ demoContainer with refcount := 1, closedFlag := true } :
        AffinityFile).refcount ≤ 1) := by
  have h := c7_deferred_close
    { demoContainer with refcount := 1, closedFlag := true } demoFilename
  exact ⟨h.1, h.2.1, h.2.2.1 (by norm_num), h.2.2.2.1 rfl,
    h.2.2.2.2 rfl rfl rfl⟩

/-- Claim C8: open() in write mode never returns a stream; on a container
whose closed query answers false it fails with the unsupported-operation
error raised for unimplemented write support. -/
theorem c8_write_mode_rejected (s : AffinityFile) (name : List Nat) :
    ((s.openEntry name .w).1.isStream = false) ∧
    ((s.closed).1 = false →
      (s.openEntry name .w).1 = .error .unsupportedOperation) := by
  constructor
  · simp only [AffinityFile.openEntry]
    rw [if_neg (by simp)]
    by_cases hc : (s.closed).1 = true
    · rw [if_pos hc]
      rfl
    · rw [if_neg hc]
      simp [OpenResult.isStream]
  · intro h
    simp only [AffinityFile.openEntry]
    rw [if_neg (by simp)]
    rw [if_neg (by simp [h])]
    simp

/-- Claim C8, witness at the demo container. -/
theorem c8_write_mode_rejected_witness :
    ((demoContainer.openEntry demoFilename .w).1.isStream = false) ∧
    (demoContainer.openEntry demoFilename .w).1 = .error .unsupportedOperation :=
  ⟨(c8_write_mode_rejected demoContainer demoFilename).1,
   (c8_write_mode_rejected demoContainer demoFilename).2 rfl⟩

/-- Lookup misses exactly when no entry filename matches the requested name
byte-for-byte. -/
theorem findEntryIn_eq_none (l : List AffinityFileInfo) (name : List Nat) :
    findEntryIn l name = none ↔ ∀ e ∈ l, e.filename ≠ name := by
  induction l with
  | nil => simp [findEntryIn]
  | cons a rest ih =>
    by_cases h : a.filename = name
    · simp [findEntryIn, h]
    · simp [findEntryIn, h, ih]

/-- Claim C9: open(name) fails with the closed error whenever the closed
query answers true (in particular whenever the underlying handle is
closed), and fails with the not-found error when the container is not
closed and no directory entry filename equals the requested name;
neither failure path changes the open-stream refcount. -/
theorem c9_notfound_and_closed (s : AffinityFile) (name : List Nat) :
    ((s.closed).1 = true →
      (s.openEntry name .r).1 = .error .closedError ∧
      ((s.openEntry name .r).2).refcount = s.refcount) ∧
    (s.handleClosed = true → (s.openEntry name .r).1 = .error .closedError) ∧
    ((s.closed).1 = false →
      (∀ e ∈ s.directory.file_entries, e.filename ≠ name) →
      (s.openEntry name .r).1 = .error .notFound ∧
      ((s.openEntry name .r).2).refcount = s.refcount) := by
  refine ⟨?_, ?_, ?_⟩
  · intro h
    constructor
    · exact openEntry_closedError s name h
    · simp only [AffinityFile.openEntry]
      rw [if_neg (by simp)]
      rw [if_pos h]
      exact closed_snd_refcount s
  · intro h
    refine openEntry_closedError s name ?_
    simp only [AffinityFile.closed]
    rw [if_pos (by simp [h])]
  · intro h hnone
    have hfe : (s.closed).2.findEntry name = none := by
      unfold AffinityFile.findEntry
      rw [closed_snd_directory]
      exact (findEntryIn_eq_none _ _).mpr hnone
    simp only [AffinityFile.openEntry]
    rw [if_neg (by simp)]
    rw [if_neg (by simp [h])]
    rw [if_neg (by simp)]
    rw [hfe]
    exact ⟨rfl, closed_snd_refcount s⟩

/-- Claim C9, witness: the closed failure on the demo container with the
closed flag set, and the not-found failure for the absent name "B". -/
theorem c9_notfound_and_closed_witness :
    ((({ demoContainer with closedFlag := true } : AffinityFile).openEntry
        demoFilename .r).1 = .error .closedError) ∧
    ((demoContainer.openEntry [66] .r).1 = .error .notFound) ∧
    (((demoContainer.openEntry [66] .r).2).refcount = demoContainer.refcount) :=
  ⟨((c9_notfound_and_closed { demoContainer with closedFlag := true }
      demoFilename).1 rfl).1,
   ((c9_notfound_and_closed demoContainer [66]).2.2 rfl (by decide)).1,
   ((c9_notfound_and_closed demoContainer [66]).2.2 rfl (by decide)).2⟩

/-- Clamp of a seek target into [0, size]: targets above size become size,
negative targets become 0, spelled with the same test order as the
source. -/
def clampPosition (size : Nat) (t : Int) : Int :=
  if t > (size : Int) then (size : Int) else if t < 0 then 0 else t

/-- Claim C10: on an open, seekable extracted stream, seek with whence 0 or
1 never raises: it returns ok, the stored logical position is the target
(offset, or position + offset) clamped into [0, size_original], the
returned value is that clamped position, and tell() then reports it. -/
theorem c10_seek_clamps (f : AffinityExtFile) (offset : Int) (whence : Nat)
    (hc : f.closed = false) (hs : f.handleSeekable = true)
    (hw : whence = 0 ∨ whence = 1) :
    f.seek offset whence =
      .ok (clampPosition f.info.size_original
             (if whence = 0 then offset else f.position + offset),
           { f with position := (clampPosition f.info.size_original
               (if whence = 0 then offset else f.position + offset)) }) ∧
    0 ≤ clampPosition f.info.size_original
          (if whence = 0 then offset else f.position + offset) ∧
    clampPosition f.info.size_original
          (if whence = 0 then offset else f.position + offset) ≤
        (f.info.size_original : Int) ∧
    ({ f with position := (clampPosition f.info.size_original
        (if whence = 0 then offset else f.position + offset)) } :
      AffinityExtFile).tell =
      .ok (clampPosition f.info.size_original
            (if whence = 0 then offset else f.position + offset)) := by
  have key : ∀ t : Int,
      (if (if t > (f.info.size_original : Int) then (f.info.size_original : Int)
            else t) < 0 then 0
       else (if t > (f.info.size_original : Int) then (f.info.size_original : Int)
            else t)) = clampPosition f.info.size_original t := by
    intro t
    unfold clampPosition
    split_ifs <;> omega
  have hbounds : ∀ t : Int, 0 ≤ clampPosition f.info.size_original t ∧
      clampPosition f.info.size_original t ≤ (f.info.size_original : Int) := by
    intro t
    unfold clampPosition
    split_ifs <;> omega
  have htell : ∀ p : Int,
      ({ f with position := p } : AffinityExtFile).tell = .ok p := by
    intro p
    simp only [AffinityExtFile.tell, AffinityExtFile.closed]
    have hc1 : (!f.filePresent || f.handleClosed) = false := by
      simpa [AffinityExtFile.closed] using hc
    simp [hc1, hs]
  rcases hw with hw | hw <;> subst hw
  · refine ⟨?_, (hbounds offset).1, (hbounds offset).2, htell _⟩
    simp only [AffinityExtFile.seek, hc, hs]
    simp [key]
  · refine ⟨?_, (hbounds (f.position + offset)).1,
      (hbounds (f.position + offset)).2, htell _⟩
    simp only [AffinityExtFile.seek, hc, hs]
    simp [key]

/-- Claim C10, witness: on the demo stream (size_original 4), an absolute
seek to 100 clamps to 4 and a relative seek by -7 clamps to 0. -/
theorem c10_seek_clamps_witness :
    demoStream.seek 100 0 = .ok (4, { demoStream with position := 4 }) ∧
    demoStream.seek (-7) 1 = .ok (0, { demoStream with position := 0 }) := by
  constructor
  · rw [(c10_seek_clamps demoStream 100 0 rfl rfl (Or.inl rfl)).1]
    rfl
  · rw [(c10_seek_clamps demoStream (-7) 1 rfl rfl (Or.inr rfl)).1]
    rfl
